import Mathlib

/-!
Verification of the openclaw harvesting/archival toolchain's specification
against a shallow embedding of its Python sources.

Conventions used throughout this development:
- Python `bytes` values are `List Nat` (each entry a byte value);
- Python strings are Lean `String`; Python string truthiness (`if s:`) is
  `s ≠ ""`, integer truthiness is `n ≠ 0`, list truthiness is `l ≠ []`;
- fallible code returns `Option` / `Except`;
- stock library primitives the code merely consumes (PBKDF2, zstd, the XML
  string parser, `datetime` formatting) are passed in as explicit function
  parameters; everything around them is translated from the repository's
  source.
-/

namespace Openclaw

/-! ## Key derivation (`knowledge_harvester/adapters/wechat.py`, `_derive_raw_key`) -/

/-- One hexadecimal digit, as in Python's `bytes.fromhex`. -/
def hexDigitVal (c : Char) : Option Nat :=
  if '0' ≤ c ∧ c ≤ '9' then some (c.toNat - 48)
  else if 'a' ≤ c ∧ c ≤ 'f' then some (c.toNat - 87)
  else if 'A' ≤ c ∧ c ≤ 'F' then some (c.toNat - 55)
  else none

/-- Decode a list of hex digit characters pairwise into bytes. -/
def hexPairs : List Char → Option (List Nat)
  | [] => some []
  | [_] => none
  | a :: b :: rest =>
    match hexDigitVal a, hexDigitVal b, hexPairs rest with
    | some h, some l, some r => some ((16 * h + l) :: r)
    | _, _, _ => none

/-- Python `bytes.fromhex`: spaces between byte pairs are skipped, every
remaining character must form hex-digit pairs.  `none` models `ValueError`. -/
def bytesFromHex (s : String) : Option (List Nat) :=
  hexPairs (s.toList.filter (fun c => c ≠ ' '))

/-- Lowercase hex encoding of a byte list, as Python's `bytes.hex()`. -/
def byteToHex (b : Nat) : String :=
  let d := fun (n : Nat) => if n < 10 then Char.ofNat (48 + n) else Char.ofNat (87 + n)
  String.mk [d (b / 16 % 16), d (b % 16)]

/-- `bytes.hex()` over a whole byte list. -/
def bytesToHex (bs : List Nat) : String :=
  String.join (bs.map byteToHex)

/-- Failure modes of `_derive_raw_key` (both surface as `ValueError` in Python:
a non-hex master password, and a DB file shorter than the 16-byte salt). -/
inductive DeriveErr where
  | badHex
  | shortFile
  deriving DecidableEq, Repr

/-- `_derive_raw_key` (wechat.py lines 240-258), translated line by line.
`pbkdf2` stands for the stock `hashlib.pbkdf2_hmac("sha512", ...)` primitive:
its arguments are password bytes, salt bytes, iteration count, and dkLen.
The salt is `f.read(16)`, i.e. the first 16 bytes of the DB file. -/
def derive_raw_key (pbkdf2 : List Nat → List Nat → Nat → Nat → List Nat)
    (master_password_hex : String) (db_file : List Nat) : Except DeriveErr String :=
  match bytesFromHex master_password_hex with
  | none => .error .badHex
  | some password =>
    let salt := db_file.take 16
    if salt.length < 16 then .error .shortFile
    else .ok (bytesToHex (pbkdf2 password salt 256000 32))

/-! ## Python keyword-argument calls
(`session_history/classifier/composite_classifier.py`) -/

/-- Python-level errors we model. -/
inductive PyErr where
  | typeError
  deriving DecidableEq, Repr

/-- Keyword parameters accepted by `FilePathSignal.__init__`
(file_path_signal.py line 13: `def __init__(self):`). -/
def filePathSignal_initKwargs : List String := []

/-- Keyword parameters accepted by `TextPatternSignal.__init__`
(text_pattern_signal.py line 14: `def __init__(self):`). -/
def textPatternSignal_initKwargs : List String := []

/-- Keyword parameters accepted by `KeywordSignal.__init__`
(keyword_signal.py line 14: `def __init__(self, settings: Settings = None):`). -/
def keywordSignal_initKwargs : List String := ["settings"]

/-- Calling a Python callable with keyword arguments raises `TypeError`
when a passed keyword is not among the accepted parameter names. -/
def callWithKwargs (accepted passed : List String) : Except PyErr Unit :=
  if passed.all (fun k => accepted.contains k) then .ok () else .error .typeError

/-- `CompositeClassifier.__init__` (composite_classifier.py lines 17-21):
`self.settings = settings or Settings()` always succeeds, then the three
signal constructors are each called with the keyword argument `settings=...`.
`α` stands for the `Settings` type; the argument's value is irrelevant to
whether the calls type-check at run time. -/
def compositeClassifier_init {α : Type} (_settings : Option α) : Except PyErr Unit := do
  callWithKwargs filePathSignal_initKwargs ["settings"]
  callWithKwargs textPatternSignal_initKwargs ["settings"]
  callWithKwargs keywordSignal_initKwargs ["settings"]

/-! ## Conversation model (`knowledge_harvester/models.py`) -/

/-- `MediaRef` dataclass (models.py lines 10-19). -/
structure MediaRef where
  type : String
  path : String := ""
  original_url : String := ""
  filename : String := ""
  size_bytes : Int := 0
  description : String := ""
  summary : String := ""
  deriving DecidableEq, Repr

/-- `Message` dataclass (models.py lines 40-48). -/
structure Message where
  role : String
  content : String
  timestamp : String := ""
  message_id : String := ""
  content_type : String := "text"
  media : List MediaRef := []
  deriving DecidableEq, Repr

/-- The JSON dict produced for a `MediaRef`: a record of optional keys
(`none` = key absent).  `type` is always present. -/
structure MediaRefDict where
  type : String
  path : Option String := none
  original_url : Option String := none
  filename : Option String := none
  size_bytes : Option Int := none
  description : Option String := none
  summary : Option String := none
  deriving DecidableEq, Repr

/-- The JSON dict produced for a `Message`; `role`, `content`, `timestamp`
are always present, the rest are optional keys. -/
structure MessageDict where
  role : String
  content : String
  timestamp : String
  message_id : Option String := none
  content_type : Option String := none
  media : Option (List MediaRefDict) := none
  deriving DecidableEq, Repr

/-- `_media_ref_to_dict` (models.py lines 22-37): sparse serialisation, each
falsy field (empty string / zero int) is omitted. -/
def media_ref_to_dict (m : MediaRef) : MediaRefDict :=
  { type := m.type
    path := if m.path ≠ "" then some m.path else none
    original_url := if m.original_url ≠ "" then some m.original_url else none
    filename := if m.filename ≠ "" then some m.filename else none
    size_bytes := if m.size_bytes ≠ 0 then some m.size_bytes else none
    description := if m.description ≠ "" then some m.description else none
    summary := if m.summary ≠ "" then some m.summary else none }

/-- `Message.to_dict` (models.py lines 50-62). -/
def Message.to_dict (m : Message) : MessageDict :=
  { role := m.role
    content := m.content
    timestamp := m.timestamp
    message_id := if m.message_id ≠ "" then some m.message_id else none
    content_type := if m.content_type ≠ "text" then some m.content_type else none
    media := if m.media ≠ [] then some (m.media.map media_ref_to_dict) else none }

/-- The per-entry `MediaRef(...)` reconstruction inside `Message.from_dict`
(models.py lines 66-77): each missing key falls back to its default. -/
def media_ref_from_dict (d : MediaRefDict) : MediaRef :=
  { type := d.type
    path := d.path.getD ""
    original_url := d.original_url.getD ""
    filename := d.filename.getD ""
    size_bytes := d.size_bytes.getD 0
    description := d.description.getD ""
    summary := d.summary.getD "" }

/-- `Message.from_dict` (models.py lines 64-85). -/
def Message.from_dict (d : MessageDict) : Message :=
  { role := d.role
    content := d.content
    timestamp := d.timestamp
    message_id := d.message_id.getD ""
    content_type := d.content_type.getD "text"
    media := (d.media.getD []).map media_ref_from_dict }

/-! ## Filter policy engine (`knowledge_harvester/filters/wechat_filter.py`) -/

/-- A Python value that is either a string or a list of strings
(the `username` criterion accepts both; wechat_filter.py lines 84-87). -/
inductive StrOrList where
  | str (s : String)
  | list (l : List String)
  deriving DecidableEq, Repr

/-- The `match` dict of a filter rule: each criterion is an optional key
(wechat_filter.py lines 76-133 read them with `in`/indexing). -/
structure MatchCriteria where
  is_group : Option Bool := none
  username : Option StrOrList := none
  title_contains : Option (List String) := none
  title_not_contains : Option (List String) := none
  min_messages : Option Int := none
  max_messages : Option Int := none
  active_within_days : Option Int := none
  dormant_days : Option Int := none
  deriving DecidableEq, Repr

/-- `FilterRule` dataclass (wechat_filter.py lines 19-25). -/
structure FilterRule where
  name : String
  mtch : MatchCriteria
  tier : String
  priority : Int := 10
  reason : String := ""
  deriving DecidableEq, Repr

/-- `FilterPolicy` dataclass (wechat_filter.py lines 34-38). -/
structure FilterPolicy where
  version : Int := 1
  default_tier : String := "archive"
  rules : List FilterRule := []
  deriving DecidableEq, Repr

/-- The conversation metadata dict passed to `evaluate`: optional keys,
read with `meta.get(...)` and the defaults the source uses at each site. -/
structure ConvMeta where
  is_group : Option Bool := none
  username : Option String := none
  title : Option String := none
  message_count : Option Int := none
  last_message_time : Option String := none
  deriving DecidableEq, Repr

/-- Does `needle` occur as a contiguous sublist of `hay`? -/
def hasSubstr (hay needle : List Char) : Bool :=
  if needle.isPrefixOf hay then true
  else
    match hay with
    | [] => false
    | _ :: t => hasSubstr t needle

/-- Python `needle in haystack` substring test. -/
def strContains (haystack needle : String) : Bool :=
  hasSubstr haystack.toList needle.toList

/-- Python `s.rstrip("/")`. -/
def rstripSlashes (s : String) : String :=
  String.mk (s.toList.reverse.dropWhile (fun c => c = '/')).reverse

/-- Seconds in a day; `timedelta(days=n)` is modelled as `n * 86400` seconds,
with all datetimes as integer epoch seconds. -/
def secondsPerDay : Int := 86400

/-- `is_group` criterion (wechat_filter.py lines 80-82): the metadata value
must equal the required one (a missing key compares unequal). -/
def critIsGroup (req : Option Bool) (meta : ConvMeta) : Bool :=
  match req with
  | some g => meta.is_group == some g
  | none => true

/-- `username` criterion (lines 84-89): a bare string is wrapped into a
one-element list; the metadata username must be a member (a missing key is
`None`, which is never a member of a list of strings). -/
def critUsername (req : Option StrOrList) (meta : ConvMeta) : Bool :=
  match req with
  | some r =>
    let usernames := match r with
      | .str s => [s]
      | .list l => l
    match meta.username with
    | some u => usernames.contains u
    | none => false
  | none => true

/-- `title_contains` criterion (lines 91-93): some keyword is a substring of
the title (default `""`). -/
def critTitleContains (req : Option (List String)) (meta : ConvMeta) : Bool :=
  match req with
  | some kws => kws.any (fun kw => strContains (meta.title.getD "") kw)
  | none => true

/-- `title_not_contains` criterion (lines 96-98): no keyword is a substring
of the title. -/
def critTitleNotContains (req : Option (List String)) (meta : ConvMeta) : Bool :=
  match req with
  | some kws => !(kws.any (fun kw => strContains (meta.title.getD "") kw))
  | none => true

/-- `min_messages` criterion (lines 101-102). -/
def critMinMessages (req : Option Int) (meta : ConvMeta) : Bool :=
  match req with
  | some lo => !(meta.message_count.getD 0 < lo)
  | none => true

/-- `max_messages` criterion (lines 105-106). -/
def critMaxMessages (req : Option Int) (meta : ConvMeta) : Bool :=
  match req with
  | some hi => !(meta.message_count.getD 0 > hi)
  | none => true

/-- `active_within_days` criterion (lines 109-120).  `parseIso` stands for
the stock `datetime.fromisoformat` (after the `Z`→`+00:00` replacement),
returning epoch seconds, `none` on a parse error; `now` is the current time.
A missing/empty timestamp or a parse failure fails the criterion. -/
def critActiveWithin (parseIso : String → Option Int) (now : Int)
    (req : Option Int) (meta : ConvMeta) : Bool :=
  match req with
  | some days =>
    let last := meta.last_message_time.getD ""
    if last ≠ "" then
      match parseIso last with
      | some t => !(t < now - days * secondsPerDay)
      | none => false
    else false
  | none => true

/-- `dormant_days` criterion (lines 122-131).  A missing/empty timestamp or
a parse failure (the `except` clause is `pass`) satisfies the criterion. -/
def critDormant (parseIso : String → Option Int) (now : Int)
    (req : Option Int) (meta : ConvMeta) : Bool :=
  match req with
  | some days =>
    let last := meta.last_message_time.getD ""
    if last ≠ "" then
      match parseIso last with
      | some t => !(t ≥ now - days * secondsPerDay)
      | none => true
    else true
  | none => true

/-- `_matches` (wechat_filter.py lines 76-133): the sequential
`if ...: return False` blocks amount to the conjunction of all criteria. -/
def rule_matches (parseIso : String → Option Int) (now : Int)
    (rule : FilterRule) (meta : ConvMeta) : Bool :=
  critIsGroup rule.mtch.is_group meta &&
  critUsername rule.mtch.username meta &&
  critTitleContains rule.mtch.title_contains meta &&
  critTitleNotContains rule.mtch.title_not_contains meta &&
  critMinMessages rule.mtch.min_messages meta &&
  critMaxMessages rule.mtch.max_messages meta &&
  critActiveWithin parseIso now rule.mtch.active_within_days meta &&
  critDormant parseIso now rule.mtch.dormant_days meta

/-- The rule-iteration loop of `FilterPolicy.evaluate` (lines 67-71):
state is `(matched_tier, matched_rule, matched_priority)`; a rule is taken
when its priority strictly exceeds the current one and it matches. -/
def evaluateAux (parseIso : String → Option Int) (now : Int)
    (meta : ConvMeta) : List FilterRule → String → String → Int → String × String
  | [], tier, name, _ => (tier, name)
  | r :: rest, tier, name, prio =>
    if r.priority > prio ∧ rule_matches parseIso now r meta then
      evaluateAux parseIso now meta rest r.tier r.name r.priority
    else
      evaluateAux parseIso now meta rest tier name prio

/-- `FilterPolicy.evaluate` (wechat_filter.py lines 58-73): starts from
`(default_tier, "default", -1)`. -/
def FilterPolicy.evaluate (parseIso : String → Option Int) (now : Int)
    (policy : FilterPolicy) (meta : ConvMeta) : String × String :=
  evaluateAux parseIso now meta policy.rules policy.default_tier "default" (-1)

/-! ## File-path signal (`session_history/classifier/file_path_signal.py`) -/

/-- `Entity` dataclass (session_history/models/category.py lines 18-27);
the `EntityType` enum value is kept as its string. -/
structure Entity where
  entity_type : String
  name : String
  display_name : String
  directory : String
  keywords : List String := []
  path_patterns : List String := []
  text_patterns : List String := []
  deriving DecidableEq, Repr

/-- `FilePathSignal._matches_entity` (file_path_signal.py lines 73-78):
a path matches when it starts with some pattern, or contains the pattern
with trailing slashes stripped as a substring. -/
def matches_entity (path : String) (entity : Entity) : Bool :=
  entity.path_patterns.any (fun pattern =>
    pattern.toList.isPrefixOf path.toList ||
      strContains path (rstripSlashes pattern))

/-- The counting loop of `FilePathSignal.score` (lines 28-36) over the
abstract message type `μ`: `extractPaths` stands for
`MessageExtractor.extract_file_paths`.  Returns
`(matched, total_with_paths)`. -/
def scoreCounts {μ : Type} (extractPaths : μ → List String)
    (messages : List μ) (entity : Entity) : Nat × Nat :=
  messages.foldl
    (fun (acc : Nat × Nat) msg =>
      let paths := extractPaths msg
      if paths = [] then acc
      else (if paths.any (fun p => matches_entity p entity) then acc.1 + 1 else acc.1,
            acc.2 + 1))
    (0, 0)

/-- The count-bonus step function of `FilePathSignal.score` (lines 46-57);
`none` models the `else: return 0.0` arm for zero matches. -/
def countBonus (matched : Nat) : Option ℚ :=
  if matched ≥ 20 then some (6/10)
  else if matched ≥ 10 then some (5/10)
  else if matched ≥ 5 then some (4/10)
  else if matched ≥ 3 then some (3/10)
  else if matched ≥ 1 then some (2/10)
  else none

/-- `FilePathSignal.score` (file_path_signal.py lines 16-60).  Python float
arithmetic is modelled exactly over `ℚ` (every constant and every ratio in
range is a small decimal). -/
def filePathScore {μ : Type} (extractPaths : μ → List String)
    (messages : List μ) (entity : Entity) : ℚ :=
  if messages.isEmpty || entity.path_patterns.isEmpty then 0
  else
    match scoreCounts extractPaths messages entity with
    | (matched, total_with_paths) =>
      if total_with_paths = 0 then 0
      else
        match countBonus matched with
        | some bonus => max ((matched : ℚ) / (total_with_paths : ℚ)) bonus
        | none => 0

/-! ## Session model and turn extraction
(`session_history/models/session.py`, `session_history/models/turn.py`,
`session_history/generator/turn_extractor.py`) -/

/-- Python `str.strip()` (whitespace from both ends). -/
def pyStrip (s : String) : String :=
  String.mk
    (((s.toList.dropWhile Char.isWhitespace).reverse.dropWhile
      Char.isWhitespace).reverse)

/-- Python `str.split(c)` on a single-character separator. -/
def splitOnCharAux (c : Char) : List Char → List Char → List (List Char)
  | [], acc => [acc.reverse]
  | x :: t, acc =>
    if x == c then acc.reverse :: splitOnCharAux c t []
    else splitOnCharAux c t (x :: acc)

/-- Code-point lexicographic comparison of character lists (Python string
`<`). -/
def charListLt : List Char → List Char → Bool
  | [], [] => false
  | [], _ :: _ => true
  | _ :: _, [] => false
  | a :: as, b :: bs => if a < b then true else if b < a then false else charListLt as bs

/-- `ContentBlock` dataclass (session.py lines 8-15).  `tool_input` is a
JSON dict; the keys the extractor reads all hold strings, so it is modelled
as an association list. -/
structure SContentBlock where
  block_type : String
  text : String := ""
  tool_name : String := ""
  tool_input : List (String × String) := []
  tool_use_id : String := ""
  deriving DecidableEq, Repr

/-- Python `d.get(key, "")` over an association list. -/
def dictGetStr (d : List (String × String)) (key : String) : String :=
  match d.find? (fun p => p.1 == key) with
  | some p => p.2
  | none => ""

/-- `SessionMessage` dataclass (session.py lines 18-31). -/
structure SessionMessage where
  uuid : String
  parent_uuid : Option String := none
  msg_type : String
  role : String := ""
  content_blocks : List SContentBlock := []
  timestamp : String := ""
  session_id : String := ""
  line_number : Nat := 0
  is_sidechain : Bool := false
  subtype : String := ""
  cwd : String := ""
  deriving DecidableEq, Repr

/-- `SessionMessage.text_content` (session.py lines 33-40): newline-join of
the non-empty texts of `text` blocks. -/
def SessionMessage.text_content (m : SessionMessage) : String :=
  String.intercalate "\n"
    (m.content_blocks.filterMap (fun b =>
      if b.block_type == "text" && b.text ≠ "" then some b.text else none))

/-- `Session` dataclass (session.py lines 66-75). -/
structure Session where
  session_id : String
  file_path : String
  messages : List SessionMessage := []
  start_time : String := ""
  end_time : String := ""
  version : String := ""
  git_branch : String := ""

/-- `Turn` dataclass (turn.py lines 7-17); `tool_counts` is a counter kept
as an association list in first-insertion order, like Python's `Counter`. -/
structure Turn where
  turn_number : Nat
  timestamp : String
  title : String
  user_prompt : String
  assistant_response : String
  tool_counts : List (String × Nat) := []
  tool_narrative : String := ""
  is_long_prompt : Bool := false
  deriving DecidableEq, Repr

/-- The literal `"<tag>"` openers of `_STRIP_TAGS`
(turn_extractor.py lines 19-29). -/
def stripOpenTags : List (List Char) :=
  ["local-command-caveat", "local-command-stdout", "local-command-stderr",
   "system-reminder", "command-name", "command-args"].map
    (fun t => ("<" ++ t ++ ">").toList)

/-- The literal `"</tag>"` closers of `_STRIP_TAGS`.  As in the regex, the
closing tag's name is chosen independently of the opening tag's. -/
def stripCloseTags : List (List Char) :=
  ["local-command-caveat", "local-command-stdout", "local-command-stderr",
   "system-reminder", "command-name", "command-args"].map
    (fun t => ("</" ++ t ++ ">").toList)

/-- If some literal in `lits` (tried in order) is a prefix of `s`, return
the remainder of `s` after it. -/
def matchAnyPrefix (lits : List (List Char)) (s : List Char) : Option (List Char) :=
  match lits with
  | [] => none
  | l :: ls => if l.isPrefixOf s then some (s.drop l.length) else matchAnyPrefix ls s

/-- Scan forward for the earliest occurrence of any closing literal and
return the remainder after it (the non-greedy `[\s\S]*?` of `_STRIP_RE`). -/
def dropThroughClose (closers : List (List Char)) : List Char → Option (List Char)
  | [] => none
  | c :: t =>
    match matchAnyPrefix closers (c :: t) with
    | some rem => some rem
    | none => dropThroughClose closers t

/-- Left-to-right non-overlapping deletion of `_STRIP_RE` matches, exactly
as `re.sub` scans: at each position try an opening tag; on a hit, delete
through the earliest closing tag; if no closing tag follows, or no opening
tag starts here, keep one character and move on.  `fuel ≥ s.length` makes
the recursion total; every step consumes at least one character. -/
def stripTagsAux : Nat → List Char → List Char
  | 0, s => s
  | fuel + 1, s =>
    match matchAnyPrefix stripOpenTags s with
    | some rest =>
      match dropThroughClose stripCloseTags rest with
      | some rest2 => stripTagsAux fuel rest2
      | none =>
        match s with
        | [] => []
        | c :: t => c :: stripTagsAux fuel t
    | none =>
      match s with
      | [] => []
      | c :: t => c :: stripTagsAux fuel t

/-- The single opener of `_UNWRAP_TAGS` (turn_extractor.py lines 32-35). -/
def unwrapOpenTag : List Char := "<command-message>".toList

/-- The single closer of `_UNWRAP_TAGS`. -/
def unwrapCloseTag : List Char := "</command-message>".toList

/-- Split `s` at the earliest occurrence of `closer`: the part before it
and the remainder after it. -/
def splitAtClose (closer : List Char) : List Char → Option (List Char × List Char)
  | [] => none
  | c :: t =>
    if closer.isPrefixOf (c :: t) then some ([], (c :: t).drop closer.length)
    else
      match splitAtClose closer t with
      | some (inner, rest) => some (c :: inner, rest)
      | none => none

/-- Left-to-right `re.sub` of `_UNWRAP_RE` replacing each match by its
captured inner text (which, as in `re.sub`, is not rescanned). -/
def unwrapTagsAux : Nat → List Char → List Char
  | 0, s => s
  | fuel + 1, s =>
    if unwrapOpenTag.isPrefixOf s then
      match splitAtClose unwrapCloseTag (s.drop unwrapOpenTag.length) with
      | some (inner, rest) => inner ++ unwrapTagsAux fuel rest
      | none =>
        match s with
        | [] => []
        | c :: t => c :: unwrapTagsAux fuel t
    else
      match s with
      | [] => []
      | c :: t => c :: unwrapTagsAux fuel t

/-- `TurnExtractor._clean_prompt` (turn_extractor.py lines 154-164):
strip `_STRIP_TAGS` matches, unwrap `_UNWRAP_TAGS` matches, trim. -/
def clean_prompt (text : String) : String :=
  let stripped := stripTagsAux text.toList.length text.toList
  let unwrapped := unwrapTagsAux stripped.length stripped
  pyStrip (String.mk unwrapped)

/-- `TurnExtractor._is_tool_result_message` (turn_extractor.py
lines 106-113). -/
def is_tool_result_message (m : SessionMessage) : Bool :=
  if m.content_blocks.isEmpty then false
  else
    let has_tool_result := m.content_blocks.any (fun b => b.block_type == "tool_result")
    let has_text := m.content_blocks.any
      (fun b => b.block_type == "text" && pyStrip b.text ≠ "")
    has_tool_result && !has_text

/-- The assistant-role filtering and block concatenation at the top of
`_extract_final_response` (turn_extractor.py lines 168-172). -/
def assistantBlocks (msgs : List SessionMessage) : List SContentBlock :=
  (msgs.filter (fun m => m.role == "assistant" || m.msg_type == "assistant")).flatMap
    (fun m => m.content_blocks)

/-- The `for i, block in enumerate(...)` scan for the last `tool_use`
index (turn_extractor.py lines 177-181). -/
def lastToolUseIdxAux : List SContentBlock → Nat → Option Nat → Option Nat
  | [], _, acc => acc
  | b :: rest, i, acc =>
    lastToolUseIdxAux rest (i + 1) (if b.block_type == "tool_use" then some i else acc)

/-- Index of the last `tool_use` block, `none` when there is none
(the Python `-1`). -/
def lastToolUseIdx (bs : List SContentBlock) : Option Nat :=
  lastToolUseIdxAux bs 0 none

/-- A text block's stripped text, when non-empty
(the collection condition at turn_extractor.py lines 186-188). -/
def strippedText (b : SContentBlock) : Option String :=
  if b.block_type == "text" && pyStrip b.text ≠ "" then some (pyStrip b.text)
  else none

/-- The body of `_extract_final_response` after the block concatenation
(turn_extractor.py lines 174-198), as a function of the concatenated
blocks. -/
def respOfBlocks (all_blocks : List SContentBlock) : String :=
  if all_blocks.isEmpty then ""
  else
    let start := match lastToolUseIdx all_blocks with
      | some i => i + 1
      | none => 0
    let parts := (all_blocks.drop start).filterMap strippedText
    if parts ≠ [] then String.intercalate "\n\n" parts
    else
      let parts2 := all_blocks.filterMap strippedText
      if parts2 ≠ [] then String.intercalate "\n\n" parts2 else ""

/-- `TurnExtractor._extract_final_response` (turn_extractor.py
lines 166-198). -/
def extract_final_response (msgs : List SessionMessage) : String :=
  respOfBlocks (assistantBlocks msgs)

/-- Increment a `Counter` association list at a key, appending new keys. -/
def bumpCount : List (String × Nat) → String → List (String × Nat)
  | [], k => [(k, 1)]
  | (k', n) :: rest, k =>
    if k' == k then (k', n + 1) :: rest else (k', n) :: bumpCount rest k

/-- `TurnExtractor._count_tools` (turn_extractor.py lines 200-208). -/
def count_tools (msgs : List SessionMessage) : List (String × Nat) :=
  ((msgs.filter (fun m => m.role == "assistant" || m.msg_type == "assistant")).flatMap
      (fun m => m.content_blocks)).foldl
    (fun acc b =>
      if b.block_type == "tool_use" && b.tool_name ≠ "" then bumpCount acc b.tool_name
      else acc) []

/-- First index of `needle` as a substring of `hay`, Python `str.find`
(with `none` for `-1`). -/
def findSubstrIdx (hay needle : List Char) : Option Nat :=
  if needle.isPrefixOf hay then some 0
  else
    match hay with
    | [] => none
    | _ :: t => (findSubstrIdx t needle).map (· + 1)

/-- `TurnExtractor._shorten_path` (turn_extractor.py lines 255-266). -/
def shorten_path (path : String) : String :=
  let pre1 := "/Users/kweng/AI/Enpack_CCC/"
  let pre2 := "/Users/kweng/AI/Enpack CCC/"
  if pre1.toList.isPrefixOf path.toList then String.mk (path.toList.drop pre1.length)
  else if pre2.toList.isPrefixOf path.toList then String.mk (path.toList.drop pre2.length)
  else
    let mark1 := "Enpack_CCC/"
    match findSubstrIdx path.toList mark1.toList with
    | some idx => String.mk (path.toList.drop (idx + mark1.length))
    | none =>
      let mark2 := "Enpack CCC/"
      match findSubstrIdx path.toList mark2.toList with
      | some idx => String.mk (path.toList.drop (idx + mark2.length))
      | none => path

/-- Order-preserving deduplication (the only effect of Python's `set` here,
since the set is sorted before use). -/
def dedupKeepOrder (l : List String) : List String :=
  l.foldl (fun acc x => if acc.contains x then acc else acc ++ [x]) []

/-- Insert into a sorted list (code-point order). -/
def insertSorted (x : String) : List String → List String
  | [] => [x]
  | y :: t =>
    if charListLt y.toList x.toList then y :: insertSorted x t else x :: y :: t

/-- Python `sorted` over strings (code-point lexicographic; the inputs here
are deduplicated, so stability is moot). -/
def sortStrings (l : List String) : List String :=
  l.foldr insertSorted []

/-- The per-block collection step of `_build_tool_narrative`
(turn_extractor.py lines 218-240): file-path keys, Bash descriptions, and
Glob/Grep patterns.  Returns `(files, bash_descriptions)` in scan order. -/
def narrativeCollect (msgs : List SessionMessage) : List String × List String :=
  ((msgs.filter (fun m => m.role == "assistant" || m.msg_type == "assistant")).flatMap
      (fun m => m.content_blocks)).foldl
    (fun acc b =>
      if b.block_type == "tool_use" then
        let files := acc.1
        let files :=
          let v := dictGetStr b.tool_input "file_path"
          if v ≠ "" then files ++ [shorten_path v] else files
        let files :=
          let v := dictGetStr b.tool_input "path"
          if v ≠ "" then files ++ [shorten_path v] else files
        let files :=
          let v := dictGetStr b.tool_input "notebook_path"
          if v ≠ "" then files ++ [shorten_path v] else files
        let descs :=
          if b.tool_name == "Bash" then
            let d := dictGetStr b.tool_input "description"
            if d ≠ "" then acc.2 ++ [d] else acc.2
          else acc.2
        let files :=
          if b.tool_name == "Glob" || b.tool_name == "Grep" then
            let p := dictGetStr b.tool_input "pattern"
            if p ≠ "" then files ++ ["pattern:" ++ String.mk (p.toList.take 40)] else files
          else files
        (files, descs)
      else acc)
    ([], [])

/-- `TurnExtractor._build_tool_narrative` (turn_extractor.py
lines 210-253).  The Python `set` of touched files is modelled as
dedup-then-sort, which agrees with `sorted(files_touched)`. -/
def build_tool_narrative (msgs : List SessionMessage) : String :=
  let collected := narrativeCollect msgs
  let file_list := sortStrings (dedupKeepOrder collected.1)
  let bash_descriptions := collected.2
  let parts : List String :=
    (if file_list ≠ [] then
      [if file_list.length > 5 then
        String.intercalate ", " (file_list.take 5) ++
          " +" ++ toString (file_list.length - 5) ++ " more"
      else String.intercalate ", " file_list]
    else []) ++
    (if bash_descriptions ≠ [] then
      [String.intercalate "; " (bash_descriptions.take 3)]
    else [])
  if parts ≠ [] then String.intercalate " -- " parts else ""

/-- Python `str.rfind` for a single character (`none` for `-1`). -/
def rfindChar (cs : List Char) (c : Char) : Option Nat :=
  (cs.foldl (fun (st : Nat × Option Nat) ch =>
    (st.1 + 1, if ch == c then some st.1 else st.2)) (0, none)).2

/-- `TurnExtractor._auto_title` (turn_extractor.py lines 268-288). -/
def auto_title (user_prompt : String) : String :=
  if user_prompt == "" then "(empty prompt)"
  else
    let first_line :=
      pyStrip (String.mk ((splitOnCharAux '\n' user_prompt.toList []).headD []))
    let cs :=
      if first_line.toList.head? == some '#' then
        (first_line.toList.dropWhile (fun c => c == '#')).dropWhile Char.isWhitespace
      else first_line.toList
    if cs.length > 60 then
      let truncated := cs.take 60
      let truncated :=
        match rfindChar truncated ' ' with
        | some i => if i > 30 then truncated.take i else truncated
        | none => truncated
      String.mk truncated ++ "..."
    else if cs ≠ [] then String.mk cs else String.mk (user_prompt.toList.take 60)

/-- `TurnExtractor._build_turn` (turn_extractor.py lines 115-152): `none`
when the cleaned prompt is empty (the turn is discarded). -/
def build_turn (turn_number : Nat) (timestamp : String) (user_prompt : String)
    (assistant_msgs : List SessionMessage) : Option Turn :=
  let cleaned := clean_prompt user_prompt
  if cleaned == "" then none
  else some
    { turn_number := turn_number
      timestamp := timestamp
      title := auto_title cleaned
      user_prompt := cleaned
      assistant_response := extract_final_response assistant_msgs
      tool_counts := count_tools assistant_msgs
      tool_narrative := build_tool_narrative assistant_msgs
      is_long_prompt := cleaned.toList.length > 500 }

/-- The message loop of `TurnExtractor.extract_turns` (turn_extractor.py
lines 41-89), with its state `(current_user_prompt, current_timestamp,
current_assistant_msgs, turn_number)` made explicit.  Note that
`turn_number` is incremented *before* `_build_turn` runs, so a discarded
turn still consumes a number. -/
def extractTurnsAux : List SessionMessage → Option String → String →
    List SessionMessage → Nat → List Turn
  | [], pending, ts, asst, n =>
    match pending with
    | some prompt =>
      match build_turn (n + 1) ts prompt asst with
      | some t => [t]
      | none => []
    | none => []
  | msg :: rest, pending, ts, asst, n =>
    if msg.msg_type == "progress" || msg.msg_type == "file-history-snapshot" ||
        msg.msg_type == "system" then
      extractTurnsAux rest pending ts asst n
    else if msg.msg_type == "user" || msg.role == "user" then
      if is_tool_result_message msg then
        extractTurnsAux rest pending ts (asst ++ [msg]) n
      else
        match pending with
        | some prompt =>
          match build_turn (n + 1) ts prompt asst with
          | some t =>
            t :: extractTurnsAux rest (some msg.text_content) msg.timestamp [] (n + 1)
          | none =>
            extractTurnsAux rest (some msg.text_content) msg.timestamp [] (n + 1)
        | none =>
          extractTurnsAux rest (some msg.text_content) msg.timestamp [] n
    else if msg.msg_type == "assistant" || msg.role == "assistant" then
      extractTurnsAux rest pending ts (asst ++ [msg]) n
    else
      extractTurnsAux rest pending ts asst n

/-- `TurnExtractor.extract_turns` (turn_extractor.py lines 41-89). -/
def extract_turns (session : Session) : List Turn :=
  extractTurnsAux session.messages none "" [] 0

/-- The two-message stream on which turn numbering skips: the first user
prompt consists solely of a `<system-reminder>` block (cleaned to empty,
so its turn is discarded), the second is a plain prompt. -/
def c2Session : Session :=
  { session_id := "s"
    file_path := "/tmp/s.jsonl"
    messages :=
      [ { uuid := "u1", msg_type := "user", role := "user",
          content_blocks :=
            [{ block_type := "text", text := "<system-reminder>x</system-reminder>" }],
          timestamp := "2026-01-01T00:00:00Z" },
        { uuid := "u2", msg_type := "user", role := "user",
          content_blocks := [{ block_type := "text", text := "hello" }],
          timestamp := "2026-01-01T00:01:00Z" } ] }

/-! ## WeChat v4 row decoding
(`knowledge_harvester/adapters/wechat.py`: `_format_size`,
`_parse_type49_xml`, `_parse_v4_msg_row`) -/

/-- Decimal digits of a natural number (own implementation so that it
kernel-reduces; fuel ≥ number of digits). -/
def natToCharsAux : Nat → Nat → List Char
  | 0, _ => []
  | fuel + 1, n =>
    if n < 10 then [Char.ofNat (48 + n)]
    else natToCharsAux fuel (n / 10) ++ [Char.ofNat (48 + n % 10)]

/-- Python `str(n)` for a natural number. -/
def natToString (n : Nat) : String :=
  String.mk (natToCharsAux (n + 1) n)

/-- Python `str(i)` for an integer. -/
def intToString (i : Int) : String :=
  if i < 0 then "-" ++ natToString (-i).toNat else natToString i.toNat

/-- Parse a run of decimal digits (`none` when empty or non-digit). -/
def digitsToNat : List Char → Option Nat
  | [] => none
  | cs =>
    cs.foldl
      (fun acc c =>
        match acc with
        | some n => if c.isDigit then some (n * 10 + (c.toNat - 48)) else none
        | none => none)
      (some 0)

/-- Python `int(s)` on a decimal string: optional surrounding whitespace and
an optional sign (`none` models `ValueError`). -/
def pyInt (s : String) : Option Int :=
  match (pyStrip s).toList with
  | '-' :: rest => (digitsToNat rest).map (fun n => -(n : Int))
  | '+' :: rest => (digitsToNat rest).map (fun n => (n : Int))
  | rest => (digitsToNat rest).map (fun n => (n : Int))

/-- Round `numer / denom` to one decimal digit, ties to even, returning the
value scaled by 10.  This models Python's `f"{x:.1f}"` exactly on the
quotients the adapter formats (IEEE-754 double rounding agrees with exact
rational rounding on these inputs). -/
def round1Dec (numer denom : Nat) : Nat :=
  let q := numer * 10 / denom
  let r := numer * 10 % denom
  if 2 * r < denom then q
  else if 2 * r > denom then q + 1
  else if q % 2 = 0 then q else q + 1

/-- `f"{numer / denom:.1f}"`. -/
def fmt1Dec (numer denom : Nat) : String :=
  let t := round1Dec numer denom
  natToString (t / 10) ++ "." ++ natToString (t % 10)

/-- `_format_size` (wechat.py lines 64-74). -/
def format_size (size_bytes : Int) : String :=
  if size_bytes ≤ 0 then ""
  else
    let n := size_bytes.toNat
    if n < 1024 then natToString n ++ "B"
    else if n < 1024 * 1024 then fmt1Dec n 1024 ++ "KB"
    else if n < 1024 * 1024 * 1024 then fmt1Dec n (1024 * 1024) ++ "MB"
    else fmt1Dec n (1024 * 1024 * 1024) ++ "GB"

/-- An `xml.etree.ElementTree` element: tag, text node, child elements. -/
structure XmlElem where
  tag : String
  text : Option String := none
  children : List XmlElem := []

/-- `Element.find(tag)`: first direct child with the tag. -/
def XmlElem.findChild (e : XmlElem) (tag : String) : Option XmlElem :=
  e.children.find? (fun c => c.tag == tag)

/-- `(el.text or "").strip()` for an optional element. -/
def elemTextStripped (e : Option XmlElem) : String :=
  match e with
  | some el => pyStrip (el.text.getD "")
  | none => ""

/-- `int(el.text) if el is not None and el.text else 0`, with the
`except` fallback to 0 (wechat.py lines 115-118 and 129-133). -/
def elemTextInt (e : Option XmlElem) : Int :=
  match e with
  | some el =>
    match el.text with
    | some t => if t ≠ "" then (pyInt t).getD 0 else 0
    | none => 0
  | none => 0

/-- The regex fallback `re.search(r"<title>([^<]+)</title>", raw)`
(wechat.py lines 98-102): at each position, an occurrence of `<title>`
followed by a non-empty run of non-`<` characters and then `</title>`. -/
def extractTitleRegex : List Char → Option String
  | [] => none
  | c :: t =>
    if "<title>".toList.isPrefixOf (c :: t) then
      let rest := (c :: t).drop 7
      let cap := rest.takeWhile (fun ch => ch ≠ '<')
      if cap ≠ [] && "</title>".toList.isPrefixOf (rest.drop cap.length) then
        some (String.mk cap)
      else extractTitleRegex t
    else extractTitleRegex t

/-- The sub-type dispatch of `_parse_type49_xml` over a successfully parsed
root element (wechat.py lines 105-209). -/
def parseType49Tree (root : XmlElem) : String × List MediaRef :=
  let appmsg :=
    match root.findChild "appmsg" with
    | some e => if e.children.isEmpty then root else e
    | none => root
  let title := elemTextStripped (appmsg.findChild "title")
  let description := elemTextStripped (appmsg.findChild "des")
  let url := elemTextStripped (appmsg.findChild "url")
  let sub_type := elemTextInt (appmsg.findChild "type")
  let attach := appmsg.findChild "appattach"
  let file_size :=
    match attach with
    | some att => elemTextInt (att.findChild "totallen")
    | none => 0
  let attach_filename :=
    match attach with
    | some att => elemTextStripped (att.findChild "attachfilename")
    | none => ""
  let filename := if attach_filename ≠ "" then attach_filename else title
  if sub_type = 6 then
    let size_str := format_size file_size
    let size_part := if size_str ≠ "" then " (" ++ size_str ++ ")" else ""
    ("[文件: " ++ filename ++ size_part ++ "]",
     [{ type := "file", filename := filename, original_url := url,
        size_bytes := file_size, description := description }])
  else if sub_type = 5 then
    (if title ≠ "" then "[链接: " ++ title ++ "]" else "[链接]",
     [{ type := "link", filename := title, original_url := url,
        description := description }])
  else if sub_type = 33 ∨ sub_type = 36 then
    (if title ≠ "" then "[小程序: " ++ title ++ "]" else "[小程序]",
     [{ type := "mini_program", filename := title, original_url := url }])
  else if sub_type = 57 then
    let ref_content :=
      match appmsg.findChild "refermsg" with
      | some rm =>
        match rm.findChild "content" with
        | some ce => String.mk ((pyStrip (ce.text.getD "")).toList.take 80)
        | none => ""
      | none => ""
    let label := if ref_content ≠ "" then "[引用: " ++ ref_content ++ "]" else "[引用]"
    (if title ≠ "" then title ++ "\n" ++ label else label, [])
  else if sub_type = 19 then
    (if title ≠ "" then "[聊天记录: " ++ title ++ "]" else "[聊天记录]", [])
  else if sub_type = 4 then
    (if title ≠ "" then "[音乐: " ++ title ++ "]" else "[音乐]",
     [{ type := "link", filename := title, original_url := url }])
  else if sub_type = 2000 ∨ sub_type = 2001 then
    (if sub_type = 2000 then "[转账]" else "[红包]", [])
  else if sub_type = 51 then
    (if title ≠ "" then "[视频号: " ++ title ++ "]" else "[视频号]",
     [{ type := "link", filename := title, original_url := url }])
  else if sub_type = 53 then ("[群通话]", [])
  else if sub_type = 87 then
    (if title ≠ "" then "[群公告: " ++ title ++ "]" else "[群公告]", [])
  else if title ≠ "" then
    ("[链接: " ++ title ++ "]",
     [{ type := "link", filename := title, original_url := url,
        description := description }])
  else ("[链接/文件]", [])

/-- The parse attempt with regex fallback of `_parse_type49_xml`
(wechat.py lines 94-103); `xmlParse` stands for the stock `ET.fromstring`,
`none` modelling `ParseError`. -/
def parseType49Body (xmlParse : String → Option XmlElem)
    (raw_content xml_text : String) : String × List MediaRef :=
  match xmlParse xml_text with
  | some root => parseType49Tree root
  | none =>
    match extractTitleRegex raw_content.toList with
    | some title =>
      let title := pyStrip title
      ("[链接: " ++ title ++ "]", [{ type := "link", filename := title }])
    | none => ("[链接/文件]", [])

/-- `_parse_type49_xml` (wechat.py lines 77-209): empty-content early
return, `"<id>:\n"`-prefix stripping via `find("<msg")`, then parse. -/
def parse_type49_xml (xmlParse : String → Option XmlElem)
    (raw_content : String) : String × List MediaRef :=
  if raw_content == "" || pyStrip raw_content == "" then ("[链接/文件]", [])
  else
    match findSubstrIdx raw_content.toList "<msg".toList with
    | some idx =>
      if idx > 0 then
        parseType49Body xmlParse raw_content
          (String.mk (raw_content.toList.drop idx))
      else if (pyStrip raw_content).toList.head? == some '<' then
        parseType49Body xmlParse raw_content raw_content
      else ("[链接/文件]", [])
    | none =>
      if (pyStrip raw_content).toList.head? == some '<' then
        parseType49Body xmlParse raw_content raw_content
      else ("[链接/文件]", [])

/-- A row of a WCDB v4 `Msg_<hash>` table as unpacked at the top of
`_parse_v4_msg_row` (wechat.py lines 745-761):
`local_id, server_id, local_type, real_sender_id, create_time, status,
message_content, WCDB_CT_message_content, hex_content`. -/
structure V4Row where
  local_id : Int
  server_id : Int := 0
  raw_type : Int
  sender_id : Int := 0
  create_time : Int
  status : Int
  content : String
  compression : Int
  hex_content : String

/-- `str(row[0] or "")` for the integer local id. -/
def localIdString (i : Int) : String :=
  if i = 0 then "" else intToString i

/-- `_parse_v4_msg_row` (wechat.py lines 745-834).  `decomp` stands for
`_decompress_content` (hex decode + zstd, a stock primitive; `none` is any
recovery failure), `xmlParse` for `ET.fromstring`, `fmtTs` for
`datetime.fromtimestamp(..., tz=utc).isoformat()`.  The low 16 bits of
`raw_type` (`& 0xFFFF`) are `% 65536`, which agrees with Python for
negative values as well. -/
def parse_v4_msg_row (decomp : String → Option String)
    (xmlParse : String → Option XmlElem) (fmtTs : Int → String)
    (row : V4Row) : Option Message :=
  let msg_type := row.raw_type % 65536
  let dc :=
    if row.compression ≠ 0 ∧ row.hex_content ≠ "" then
      match decomp row.hex_content with
      | some d => (d, (0 : Int))
      | none =>
        (if msg_type = 1 then "[压缩文本]" else row.content, row.compression)
    else (row.content, row.compression)
  let content := dc.1
  let compression := dc.2
  if pyStrip content == "" ∧ msg_type = 1 then none
  else
    let role := if row.status = 3 then "user" else "assistant"
    let timestamp := if row.create_time ≠ 0 then fmtTs row.create_time else ""
    let emit := fun (content_type content2 : String) (media : List MediaRef) =>
      some { role := role, content := content2, timestamp := timestamp,
             message_id := localIdString row.local_id,
             content_type := content_type, media := media }
    if msg_type = 3 then emit "image" "[图片]" [{ type := "image" }]
    else if msg_type = 34 then emit "audio" "[语音]" [{ type := "voice" }]
    else if msg_type = 43 then emit "video" "[视频]" [{ type := "video" }]
    else if msg_type = 47 then emit "sticker" "[表情]" []
    else if msg_type = 48 then emit "location" "[位置]" []
    else if msg_type = 49 then
      if compression ≠ 0 ∧ ¬ ((pyStrip content).toList.head? == some '<') then
        emit "link" "[链接/文件]" []
      else
        let pr := parse_type49_xml xmlParse content
        emit "link" pr.1 pr.2
    else if msg_type = 10000 then emit "text" content []
    else if msg_type = 10002 then emit "text" content []
    else if msg_type ≠ 1 then
      if pyStrip content == "" ∨ compression ≠ 0 then none
      else emit "text" content []
    else emit "text" content []

/-- The message kinds `_parse_v4_msg_row` recognises. -/
def recognizedKinds : List Int := [1, 3, 34, 43, 47, 48, 49, 10000, 10002]

/-- The canonical file-card payload of the spec's scenario 3. -/
def fileCardXml : String :=
  "<msg><appmsg><title>report.pdf</title><type>6</type><appattach><totallen>1048576</totallen></appattach></appmsg></msg>"

/-- The element tree `ET.fromstring` produces for `fileCardXml`. -/
def fileCardTree : XmlElem :=
  { tag := "msg", text := none, children :=
    [{ tag := "appmsg", text := none, children :=
      [{ tag := "title", text := some "report.pdf", children := [] },
       { tag := "type", text := some "6", children := [] },
       { tag := "appattach", text := none, children :=
         [{ tag := "totallen", text := some "1048576", children := [] }] }] }] }

/-! ## Output-file write traces
(`session_history/generator/index_generator.py`,
`knowledge_harvester/storage.py`) -/

/-- File-system operations an output writer performs: truncating open
(`open(path, "w")`), a data write to the open file, or a rename. -/
inductive FsOp where
  | openTrunc (path : String)
  | append (path : String) (data : String)
  | rename (src dst : String)

/-- Is the operation a rename? -/
def FsOp.isRename : FsOp → Bool
  | .rename _ _ => true
  | _ => false

/-- Effect of one operation on the file system (path → contents). -/
def execOp (fs : String → Option String) : FsOp → String → Option String
  | .openTrunc p => fun q => if q == p then some "" else fs q
  | .append p d => fun q => if q == p then some ((fs p).getD "" ++ d) else fs q
  | .rename s d => fun q => if q == d then fs s else if q == s then none else fs q

/-- Effect of a sequence of operations. -/
def execOps (fs : String → Option String) (ops : List FsOp) :
    String → Option String :=
  ops.foldl execOp fs

/-- `IndexGenerator.write_entity_index` (index_generator.py lines 33-40):
`open(index_path, "w")` truncates the final path, then `json.dump` streams
the serialized index into it.  No temporary file, no rename. -/
def writeEntityIndexTrace (index_path data : String) : List FsOp :=
  [.openTrunc index_path, .append index_path data]

/-- `Storage.save_conversation` (storage.py lines 18-28):
`open(path, "w")` truncates the final path, then one
`f.write(json.dumps(...) + "\n")` per message. -/
def saveConversationTrace (path : String) (lines : List String) : List FsOp :=
  .openTrunc path :: lines.map (fun l => .append path (l ++ "\n"))

/-- `Storage._update_index` (storage.py lines 55-73): `open(index_path,
"w")` truncates the final path, then `json.dump` streams into it. -/
def updateIndexTrace (index_path data : String) : List FsOp :=
  [.openTrunc index_path, .append index_path data]

/-- A write trace replaces `target` atomically when, at every interruption
point (prefix of the trace), the target holds either its old contents or
the complete new contents — the property write-temp + rename provides. -/
def atomicReplace (tr : List FsOp) (target newData : String) : Prop :=
  ∀ (fs : String → Option String) (k : Nat),
    execOps fs (tr.take k) target = fs target ∨
    execOps fs (tr.take k) target = some newData

lemma optStr_roundtrip (s : String) :
    (if s = "" then none else some s).getD "" = s := by
  by_cases h : s = "" <;> simp [h]

lemma optInt_roundtrip (n : Int) :
    (if n = 0 then none else some n).getD 0 = n := by
  by_cases h : n = 0 <;> simp [h]

lemma media_ref_roundtrip (m : MediaRef) :
    media_ref_from_dict (media_ref_to_dict m) = m := by
  cases m with
  | mk t p u f s d su =>
    simp [media_ref_to_dict, media_ref_from_dict,
      optStr_roundtrip, optInt_roundtrip]

end Openclaw

namespace Openclaw

/-- C1: for every master secret that hex-decodes and every DB file of at
least 16 bytes, `_derive_raw_key` deterministically returns the hex encoding
of PBKDF2-HMAC-SHA512(master, first 16 bytes of the file, 256000, dkLen=32);
for every file shorter than 16 bytes it fails instead of returning a key.
Determinism holds because the embedding is a pure function of its inputs. -/
theorem derive_key_spec (pbkdf2 : List Nat → List Nat → Nat → Nat → List Nat)
    (master : String) (pw : List Nat) (file : List Nat)
    (hpw : bytesFromHex master = some pw) :
    (16 ≤ file.length →
      derive_raw_key pbkdf2 master file =
        .ok (bytesToHex (pbkdf2 pw (file.take 16) 256000 32))) ∧
    (file.length < 16 →
      derive_raw_key pbkdf2 master file = .error .shortFile) := by
  constructor
  · intro hlen
    have hsalt : ¬ (file.take 16).length < 16 := by
      simp [List.length_take]; omega
    simp only [derive_raw_key, hpw]
    rw [if_neg hsalt]
  · intro hlen
    have hsalt : (file.take 16).length < 16 := by
      simp [List.length_take]; omega
    simp only [derive_raw_key, hpw]
    rw [if_pos hsalt]

/-- Witness for `derive_key_spec` at a concrete master key and files of
lengths 16 and 3. -/
theorem derive_key_spec_witness :
    bytesFromHex "ab" = some [171] ∧
    derive_raw_key (fun _ _ _ _ => [0, 255])
        "ab" (List.replicate 16 7) = .ok "00ff" ∧
    derive_raw_key (fun _ _ _ _ => [0, 255]) "ab" [1, 2, 3] =
      .error .shortFile := by
  refine ⟨by decide, ?_, ?_⟩
  · have h := (derive_key_spec (fun _ _ _ _ => [0, 255]) "ab" [171]
      (List.replicate 16 7) (by decide)).1 (by decide)
    simpa using h
  · exact (derive_key_spec (fun _ _ _ _ => [0, 255]) "ab" [171]
      [1, 2, 3] (by decide)).2 (by decide)

lemma evaluateAux_no_update (parseIso : String → Option Int) (now : Int)
    (meta : ConvMeta) (rules : List FilterRule) (t n : String) (p : Int)
    (h : ∀ r ∈ rules, rule_matches parseIso now r meta = true → r.priority ≤ p) :
    evaluateAux parseIso now meta rules t n p = (t, n) := by
  induction rules with
  | nil => rfl
  | cons r₀ rest ih =>
    simp only [evaluateAux]
    split
    · next hcond =>
      exact absurd (h r₀ (List.mem_cons_self _ _) hcond.2) (by omega)
    · exact ih (fun r hr hm => h r (List.mem_cons_of_mem _ hr) hm)

lemma evaluateAux_select (parseIso : String → Option Int) (now : Int)
    (meta : ConvMeta) (rules : List FilterRule) (r : FilterRule) :
    ∀ (t n : String) (p : Int), r ∈ rules →
    rule_matches parseIso now r meta = true → p < r.priority →
    (∀ r' ∈ rules, rule_matches parseIso now r' meta = true →
      r' = r ∨ r'.priority < r.priority) →
    evaluateAux parseIso now meta rules t n p = (r.tier, r.name) := by
  induction rules with
  | nil => intro t n p hmem; exact absurd hmem (List.not_mem_nil r)
  | cons r₀ rest ih =>
    intro t n p hmem hmatch hp hmax
    by_cases h₀ : r₀ = r
    · subst h₀
      simp only [evaluateAux]
      split
      · apply evaluateAux_no_update
        intro r' hr' hm'
        rcases hmax r' (List.mem_cons_of_mem _ hr') hm' with h | h
        · exact le_of_eq (by rw [h])
        · exact le_of_lt h
      · next hcond => exact absurd ⟨hp, hmatch⟩ hcond
    · have hmem' : r ∈ rest := by
        rcases List.mem_cons.mp hmem with h | h
        · exact absurd h.symm h₀
        · exact h
      have hmax' : ∀ r' ∈ rest, rule_matches parseIso now r' meta = true →
          r' = r ∨ r'.priority < r.priority :=
        fun r' hr' hm' => hmax r' (List.mem_cons_of_mem _ hr') hm'
      simp only [evaluateAux]
      split
      · next hcond =>
        have : r₀.priority < r.priority := by
          rcases hmax r₀ (List.mem_cons_self _ _) hcond.2 with h | h
          · exact absurd h h₀
          · exact h
        exact ih r₀.tier r₀.name r₀.priority hmem' hmatch this hmax'
      · exact ih t n p hmem' hmatch hp hmax'

/-- C4 (amended): evaluating with an empty rule list returns
`(default_tier, "default")`; a rule matches iff all of its criteria hold;
and among matching rules, one of **non-negative** priority strictly above
every other matching rule's priority determines the returned tier and rule
name.  (Matching rules of negative priority are never selected, because the
scan of `FilterPolicy.evaluate` starts from priority `-1` — see the
counterexample `filter_policy_negative_priority_counterexample`.) -/
theorem filter_policy_evaluate_spec (parseIso : String → Option Int)
    (now : Int) (policy : FilterPolicy) (meta : ConvMeta) :
    (policy.rules = [] →
      policy.evaluate parseIso now meta = (policy.default_tier, "default")) ∧
    (∀ rule : FilterRule,
      rule_matches parseIso now rule meta = true ↔
        (critIsGroup rule.mtch.is_group meta = true ∧
         critUsername rule.mtch.username meta = true ∧
         critTitleContains rule.mtch.title_contains meta = true ∧
         critTitleNotContains rule.mtch.title_not_contains meta = true ∧
         critMinMessages rule.mtch.min_messages meta = true ∧
         critMaxMessages rule.mtch.max_messages meta = true ∧
         critActiveWithin parseIso now rule.mtch.active_within_days meta = true ∧
         critDormant parseIso now rule.mtch.dormant_days meta = true)) ∧
    (∀ r ∈ policy.rules, rule_matches parseIso now r meta = true →
      0 ≤ r.priority →
      (∀ r' ∈ policy.rules, rule_matches parseIso now r' meta = true →
        r' = r ∨ r'.priority < r.priority) →
      policy.evaluate parseIso now meta = (r.tier, r.name)) := by
  refine ⟨?_, ?_, ?_⟩
  · intro h
    simp [FilterPolicy.evaluate, h, evaluateAux]
  · intro rule
    simp [rule_matches, Bool.and_eq_true, and_assoc]
  · intro r hmem hmatch hpos hmax
    exact evaluateAux_select parseIso now meta policy.rules r
      policy.default_tier "default" (-1) hmem hmatch (by omega) hmax

/-- Witness for `filter_policy_evaluate_spec`: two always-matching rules
with priorities 5 and 1; the priority-5 rule determines the result. -/
theorem filter_policy_evaluate_spec_witness :
    FilterPolicy.evaluate (fun _ => none) 0
      { default_tier := "archive",
        rules := [⟨"vip", {}, "keep", 5, ""⟩, ⟨"low", {}, "exclude", 1, ""⟩] }
      {} = ("keep", "vip") := by
  exact (filter_policy_evaluate_spec (fun _ => none) 0
      { default_tier := "archive",
        rules := [⟨"vip", {}, "keep", 5, ""⟩, ⟨"low", {}, "exclude", 1, ""⟩] }
      {}).2.2 ⟨"vip", {}, "keep", 5, ""⟩ (by simp) (by decide) (by decide)
      (by decide)

/-- C4 counterexample to the claim as stated: a single rule whose criteria
all hold but whose priority is `-5` is the unique (hence highest-priority)
matching rule, yet evaluation returns the default tier instead of the
rule's tier — negative priorities never win. -/
theorem filter_policy_negative_priority_counterexample :
    rule_matches (fun _ => none) 0 ⟨"neg", {}, "keep", -5, ""⟩ {} = true ∧
    FilterPolicy.evaluate (fun _ => none) 0
      { default_tier := "archive", rules := [⟨"neg", {}, "keep", -5, ""⟩] }
      {} = ("archive", "default") ∧
    ("archive", "default") ≠ ("keep", "neg") := by
  refine ⟨by decide, by decide, by decide⟩

lemma countBonus_none_iff (m : Nat) : countBonus m = none ↔ m = 0 := by
  by_cases h20 : m ≥ 20
  · simp [countBonus, h20]; omega
  · by_cases h10 : m ≥ 10
    · simp [countBonus, h20, h10]; omega
    · by_cases h5 : m ≥ 5
      · simp [countBonus, h20, h10, h5]; omega
      · by_cases h3 : m ≥ 3
        · simp [countBonus, h20, h10, h5, h3]; omega
        · by_cases h1 : m ≥ 1
          · simp [countBonus, h20, h10, h5, h3, h1]; omega
          · simp [countBonus, h20, h10, h5, h3, h1]; omega

lemma scoreCounts_of_no_paths {μ : Type} (extractPaths : μ → List String)
    (messages : List μ) (entity : Entity)
    (h : ∀ m ∈ messages, extractPaths m = []) :
    scoreCounts extractPaths messages entity = (0, 0) := by
  have aux : ∀ (msgs : List μ), (∀ m ∈ msgs, extractPaths m = []) →
      ∀ acc : Nat × Nat,
      msgs.foldl (fun (acc : Nat × Nat) msg =>
        let paths := extractPaths msg
        if paths = [] then acc
        else (if paths.any (fun p => matches_entity p entity) then acc.1 + 1
              else acc.1, acc.2 + 1)) acc = acc := by
    intro msgs hmsgs
    induction msgs with
    | nil => intro acc; rfl
    | cons m rest ih =>
      intro acc
      have hm : extractPaths m = [] := hmsgs m (List.mem_cons_self _ _)
      simp only [List.foldl_cons, hm]
      exact ih (fun x hx => hmsgs x (List.mem_cons_of_mem _ hx)) acc
  exact aux messages h (0, 0)

/-- C5: for every message list and every entity with at least one path
pattern, the FilePath signal score is 0 when no message carries any
extracted file path; otherwise (some message carries paths, i.e. the
`total_with_paths` count is positive) it equals
`max(matched / total_with_paths, count_bonus)` with the step-function
bonus (`(countBonus matched).getD 0` is `0` exactly when `matched = 0`,
where the source returns `0.0` directly and the max is `0` as well). -/
theorem file_path_score_spec {μ : Type} (extractPaths : μ → List String)
    (messages : List μ) (entity : Entity)
    (hpat : entity.path_patterns ≠ []) :
    ((∀ m ∈ messages, extractPaths m = []) →
      filePathScore extractPaths messages entity = 0) ∧
    (∀ matched total : Nat,
      scoreCounts extractPaths messages entity = (matched, total) →
      0 < total →
      filePathScore extractPaths messages entity =
        max ((matched : ℚ) / (total : ℚ)) ((countBonus matched).getD 0)) := by
  constructor
  · intro h
    by_cases hm : messages = []
    · simp [filePathScore, hm]
    · have hc := scoreCounts_of_no_paths extractPaths messages entity h
      simp [filePathScore, hc, List.isEmpty_iff, hm, hpat]
  · intro matched total hcounts htotal
    have hm : messages ≠ [] := by
      intro hnil
      rw [hnil] at hcounts
      simp only [scoreCounts, List.foldl_nil, Prod.mk.injEq] at hcounts
      omega
    have hne : (messages.isEmpty || entity.path_patterns.isEmpty) = false := by
      simp [List.isEmpty_iff, hm, hpat]
    simp only [filePathScore, hne, Bool.false_eq_true, if_false, hcounts]
    rw [if_neg (by omega)]
    match hb : countBonus matched with
    | some bonus => simp [hb]
    | none =>
      have hmz : matched = 0 := (countBonus_none_iff matched).mp hb
      subst hmz
      simp [hb]

/-- Witness for `file_path_score_spec`: the spec's own scenario — 5
path-bearing messages, 3 of which match `specs/01_foo/`; the score is
exactly 0.6. -/
theorem file_path_score_spec_witness :
    filePathScore
      (fun n : Nat => if n ≤ 3 then ["specs/01_foo/a.md"] else ["src/x.py"])
      [1, 2, 3, 4, 5]
      { entity_type := "spec", name := "01_foo", display_name := "foo",
        directory := "specs/01_foo", path_patterns := ["specs/01_foo/"] }
      = 6/10 := by
  have h := (file_path_score_spec
      (fun n : Nat => if n ≤ 3 then ["specs/01_foo/a.md"] else ["src/x.py"])
      [1, 2, 3, 4, 5]
      { entity_type := "spec", name := "01_foo", display_name := "foo",
        directory := "specs/01_foo", path_patterns := ["specs/01_foo/"] }
      (List.cons_ne_nil _ _)).2 3 5 (by decide) (by norm_num)
  rw [h]
  have hb : countBonus 3 = some (3/10) := rfl
  rw [hb, Option.getD_some]
  rw [max_eq_left (by norm_num)]
  norm_num

/-- C2 (code bug): on `c2Session` — a first user prompt that cleans to the
empty string (so its turn is discarded) followed by the plain prompt
"hello" — the extractor emits exactly one turn, but its turn number is 2,
not 1: `turn_number` is incremented before `_build_turn` discards the
empty-prompt turn, so the discarded turn consumes a number and the emitted
numbers are not the contiguous sequence 1..N. -/
theorem turn_numbering_skips_discarded :
    (extract_turns c2Session).map Turn.turn_number = [2] ∧
    (extract_turns c2Session).length = 1 ∧
    (extract_turns c2Session).map Turn.turn_number ≠ [1] := by
  refine ⟨by decide, by decide, by decide⟩

lemma lastToolUseIdxAux_append (xs ys : List SContentBlock) (i : Nat)
    (acc : Option Nat) :
    lastToolUseIdxAux (xs ++ ys) i acc =
      lastToolUseIdxAux ys (i + xs.length) (lastToolUseIdxAux xs i acc) := by
  induction xs generalizing i acc with
  | nil => simp [lastToolUseIdxAux]
  | cons b rest ih =>
    show lastToolUseIdxAux (rest ++ ys) (i + 1)
        (if (b.block_type == "tool_use") = true then some i else acc) =
      lastToolUseIdxAux ys (i + (rest.length + 1))
        (lastToolUseIdxAux rest (i + 1)
          (if (b.block_type == "tool_use") = true then some i else acc))
    rw [ih, show i + 1 + rest.length = i + (rest.length + 1) by omega]

lemma lastToolUseIdxAux_no_tool_use (bs : List SContentBlock) (i : Nat)
    (acc : Option Nat) (h : ∀ x ∈ bs, x.block_type ≠ "tool_use") :
    lastToolUseIdxAux bs i acc = acc := by
  induction bs generalizing i acc with
  | nil => rfl
  | cons b rest ih =>
    have hb : (b.block_type == "tool_use") = false := by
      simp [h b (List.mem_cons_self _ _)]
    simp only [lastToolUseIdxAux, hb, Bool.false_eq_true, if_false]
    exact ih _ _ (fun x hx => h x (List.mem_cons_of_mem _ hx))

lemma lastToolUseIdx_split (pre suf : List SContentBlock) (b : SContentBlock)
    (hb : b.block_type = "tool_use")
    (hsuf : ∀ x ∈ suf, x.block_type ≠ "tool_use") :
    lastToolUseIdx (pre ++ b :: suf) = some pre.length := by
  unfold lastToolUseIdx
  rw [lastToolUseIdxAux_append]
  have hbe : (b.block_type == "tool_use") = true := by simp [hb]
  simp only [lastToolUseIdxAux, hbe, if_true]
  rw [lastToolUseIdxAux_no_tool_use suf _ _ hsuf]
  simp

lemma drop_after_split (pre suf : List SContentBlock) (b : SContentBlock) :
    (pre ++ b :: suf).drop (pre.length + 1) = suf := by
  have h1 : pre ++ b :: suf = (pre ++ [b]) ++ suf := by simp
  have h2 : pre.length + 1 = (pre ++ [b]).length := by simp
  rw [h1, h2, List.drop_left]

/-- C3: within the assistant messages accumulated in a turn, decompose the
concatenated content blocks around the last `tool_use` (`suf` contains no
`tool_use`).  When at least one non-empty text block occurs after it, the
response is the blank-line join of exactly the (stripped) texts after the
last `tool_use` — in particular it is computed from `suf` only, so no text
block emitted before the last `tool_use` contributes.  When no text block
follows the last `tool_use`, the response falls back to all text blocks in
order. -/
theorem extract_final_response_spec (msgs : List SessionMessage)
    (pre suf : List SContentBlock) (b : SContentBlock)
    (hb : b.block_type = "tool_use")
    (hsuf : ∀ x ∈ suf, x.block_type ≠ "tool_use")
    (hblocks : assistantBlocks msgs = pre ++ b :: suf) :
    (suf.filterMap strippedText ≠ [] →
      extract_final_response msgs =
        String.intercalate "\n\n" (suf.filterMap strippedText)) ∧
    (suf.filterMap strippedText = [] →
      extract_final_response msgs =
        String.intercalate "\n\n" ((pre ++ b :: suf).filterMap strippedText)) := by
  have hne : (pre ++ b :: suf).isEmpty = false := by simp
  have hlast := lastToolUseIdx_split pre suf b hb hsuf
  have hdrop := drop_after_split pre suf b
  constructor
  · intro hparts
    simp only [extract_final_response, hblocks, respOfBlocks, hne,
      Bool.false_eq_true, if_false, hlast, hdrop]
    rw [if_pos hparts]
  · intro hparts
    simp only [extract_final_response, hblocks, respOfBlocks, hne,
      Bool.false_eq_true, if_false, hlast, hdrop, hparts, ne_eq,
      not_true_eq_false, if_false]
    by_cases h2 : (pre ++ b :: suf).filterMap strippedText = []
    · rw [if_neg (not_not_intro h2), h2]
      rfl
    · rw [if_pos h2]

/-- Witness for `extract_final_response_spec`: one assistant message whose
blocks are text "intro", a `tool_use`, then text "done"; the response is
exactly "done" (the preamble "intro" is excluded). -/
theorem extract_final_response_spec_witness :
    extract_final_response
      [{ uuid := "a1", msg_type := "assistant", role := "assistant",
         content_blocks :=
           [{ block_type := "text", text := "intro" },
            { block_type := "tool_use", tool_name := "Read" },
            { block_type := "text", text := "done" }] }] = "done" := by
  have h := (extract_final_response_spec
      [{ uuid := "a1", msg_type := "assistant", role := "assistant",
         content_blocks :=
           [{ block_type := "text", text := "intro" },
            { block_type := "tool_use", tool_name := "Read" },
            { block_type := "text", text := "done" }] }]
      [{ block_type := "text", text := "intro" }]
      [{ block_type := "text", text := "done" }]
      { block_type := "tool_use", tool_name := "Read" }
      rfl (by decide) (by decide)).1 (by decide)
  exact h.trans (by decide)

/-- C6 counterexample to the claim as stated: a kind-3 (image) row whose
compressed payload fails to recover is *not* dropped — it is emitted as an
image placeholder message — and the kind-1 placeholder is the Chinese
string "[压缩文本]", not "[compressed text]". -/
theorem compressed_fail_counterexample :
    parse_v4_msg_row (fun _ => none) (fun _ => none) (fun _ => "")
        { local_id := 7, raw_type := 3, create_time := 0, status := 0,
          content := "", compression := 1, hex_content := "zz" } =
      some { role := "assistant", content := "[图片]", timestamp := "",
             message_id := "7", content_type := "image",
             media := [{ type := "image" }] } ∧
    (parse_v4_msg_row (fun _ => none) (fun _ => none) (fun _ => "")
        { local_id := 7, raw_type := 1, create_time := 0, status := 0,
          content := "orig", compression := 4, hex_content := "zz" }).map
      Message.content = some "[压缩文本]" ∧
    ("[压缩文本]" : String) ≠ "[compressed text]" := by
  refine ⟨by decide, by decide, by decide⟩

/-- C6 (amended): when recovery of a non-empty hex-encoded compressed
payload fails, a kind-1 row is emitted with content "[压缩文本]"; a row of
an *unrecognised* kind (outside {1, 3, 34, 43, 47, 48, 49, 10000, 10002})
is dropped; and a recognised media kind such as 3 is still emitted with its
placeholder — not dropped. -/
theorem compressed_fail_spec (decomp : String → Option String)
    (xmlParse : String → Option XmlElem) (fmtTs : Int → String) (row : V4Row)
    (hcomp : row.compression ≠ 0) (hhex : row.hex_content ≠ "")
    (hfail : decomp row.hex_content = none) :
    (row.raw_type % 65536 = 1 →
      parse_v4_msg_row decomp xmlParse fmtTs row =
        some { role := if row.status = 3 then "user" else "assistant",
               content := "[压缩文本]",
               timestamp := if row.create_time ≠ 0 then fmtTs row.create_time else "",
               message_id := localIdString row.local_id,
               content_type := "text", media := [] }) ∧
    (row.raw_type % 65536 = 3 →
      parse_v4_msg_row decomp xmlParse fmtTs row =
        some { role := if row.status = 3 then "user" else "assistant",
               content := "[图片]",
               timestamp := if row.create_time ≠ 0 then fmtTs row.create_time else "",
               message_id := localIdString row.local_id,
               content_type := "image", media := [{ type := "image" }] }) ∧
    (row.raw_type % 65536 ∉ recognizedKinds →
      parse_v4_msg_row decomp xmlParse fmtTs row = none) := by
  refine ⟨?_, ?_, ?_⟩
  · intro h1
    have hps : (pyStrip "[压缩文本]" == "") = false := by decide
    simp [parse_v4_msg_row, h1, hcomp, hhex, hfail, hps]
  · intro h3
    simp [parse_v4_msg_row, h3, hcomp, hhex, hfail]
  · intro hk
    have hne : ∀ k ∈ recognizedKinds, row.raw_type % 65536 ≠ k :=
      fun k hk' h => hk (h ▸ hk')
    have h1 := hne 1 (by simp [recognizedKinds])
    have h3 := hne 3 (by simp [recognizedKinds])
    have h34 := hne 34 (by simp [recognizedKinds])
    have h43 := hne 43 (by simp [recognizedKinds])
    have h47 := hne 47 (by simp [recognizedKinds])
    have h48 := hne 48 (by simp [recognizedKinds])
    have h49 := hne 49 (by simp [recognizedKinds])
    have h10000 := hne 10000 (by simp [recognizedKinds])
    have h10002 := hne 10002 (by simp [recognizedKinds])
    simp [parse_v4_msg_row, hcomp, hhex, hfail,
      h1, h3, h34, h43, h47, h48, h49, h10000, h10002]

/-- Witness for `compressed_fail_spec` at a kind-1, a kind-3, and an
unrecognised kind-1234 row. -/
theorem compressed_fail_spec_witness :
    (parse_v4_msg_row (fun _ => none) (fun _ => none) (fun _ => "")
        { local_id := 7, raw_type := 1, create_time := 0, status := 0,
          content := "orig", compression := 4, hex_content := "zz" }).map
      Message.content = some "[压缩文本]" ∧
    parse_v4_msg_row (fun _ => none) (fun _ => none) (fun _ => "")
        { local_id := 7, raw_type := 1234, create_time := 0, status := 0,
          content := "stuff", compression := 4, hex_content := "zz" } = none := by
  constructor
  · have h := (compressed_fail_spec (fun _ => none) (fun _ => none) (fun _ => "")
      { local_id := 7, raw_type := 1, create_time := 0, status := 0,
        content := "orig", compression := 4, hex_content := "zz" }
      (by decide) (by decide) rfl).1 (by decide)
    rw [h]
    rfl
  · exact (compressed_fail_spec (fun _ => none) (fun _ => none) (fun _ => "")
      { local_id := 7, raw_type := 1234, create_time := 0, status := 0,
        content := "stuff", compression := 4, hex_content := "zz" }
      (by decide) (by decide) rfl).2.2 (by decide)

/-- C7 counterexample to the claim as stated: the file-card label the
decoder emits is the Chinese "[文件: report.pdf (1.0MB)]", not
"[file: report.pdf (1.0MB)]". -/
theorem file_card_label_counterexample :
    (parse_v4_msg_row (fun _ => none)
        (fun s => if s == fileCardXml then some fileCardTree else none)
        (fun _ => "")
        { local_id := 1, raw_type := 49, create_time := 0, status := 0,
          content := fileCardXml, compression := 0, hex_content := "" }).map
      Message.content = some "[文件: report.pdf (1.0MB)]" ∧
    (some "[文件: report.pdf (1.0MB)]" : Option String) ≠
      some "[file: report.pdf (1.0MB)]" := by
  refine ⟨by decide, by decide⟩

lemma parse_type49_fileCard (xmlParse : String → Option XmlElem)
    (hparse : xmlParse fileCardXml = some fileCardTree) :
    parse_type49_xml xmlParse fileCardXml =
      ("[文件: report.pdf (1.0MB)]",
       [{ type := "file", filename := "report.pdf", size_bytes := 1048576 }]) := by
  have h1 : (fileCardXml == "" || pyStrip fileCardXml == "") = false := by decide
  have h2 : findSubstrIdx fileCardXml.toList "<msg".toList = some 0 := by decide
  have h3 : ((pyStrip fileCardXml).toList.head? == some '<') = true := by decide
  simp only [parse_type49_xml, h1, Bool.false_eq_true, if_false, h2,
    gt_iff_lt, lt_self_iff_false, if_false, h3, if_true]
  simp only [parseType49Body, hparse]
  decide

/-- C7 (amended): for every kind-49 row with compression 0 whose payload is
the file-card XML (appmsg sub-type 6, title "report.pdf",
appattach/totallen 1048576), the decoder emits a message with content
exactly "[文件: report.pdf (1.0MB)]" (the label is Chinese, not
"[file: ...]"), content type "link", and exactly one MediaRef with type
"file", filename "report.pdf" and size_bytes 1048576. -/
theorem file_card_spec (decomp : String → Option String)
    (xmlParse : String → Option XmlElem) (fmtTs : Int → String) (row : V4Row)
    (hk : row.raw_type % 65536 = 49) (hc : row.compression = 0)
    (hcontent : row.content = fileCardXml)
    (hparse : xmlParse fileCardXml = some fileCardTree) :
    parse_v4_msg_row decomp xmlParse fmtTs row =
      some { role := if row.status = 3 then "user" else "assistant",
             content := "[文件: report.pdf (1.0MB)]",
             timestamp := if row.create_time ≠ 0 then fmtTs row.create_time else "",
             message_id := localIdString row.local_id,
             content_type := "link",
             media := [{ type := "file", filename := "report.pdf",
                         size_bytes := 1048576 }] } := by
  simp [parse_v4_msg_row, hk, hc, hcontent,
    parse_type49_fileCard xmlParse hparse]

/-- Witness for `file_card_spec` at a fully concrete row. -/
theorem file_card_spec_witness :
    parse_v4_msg_row (fun _ => none)
        (fun s => if s == fileCardXml then some fileCardTree else none)
        (fun _ => "")
        { local_id := 1, raw_type := 49, create_time := 0, status := 0,
          content := fileCardXml, compression := 0, hex_content := "" } =
      some { role := "assistant", content := "[文件: report.pdf (1.0MB)]",
             timestamp := "", message_id := "1", content_type := "link",
             media := [{ type := "file", filename := "report.pdf",
                         size_bytes := 1048576 }] } := by
  have h := file_card_spec (fun _ => none)
    (fun s => if s == fileCardXml then some fileCardTree else none)
    (fun _ => "")
    { local_id := 1, raw_type := 49, create_time := 0, status := 0,
      content := fileCardXml, compression := 0, hex_content := "" }
    (by decide) rfl rfl (by simp)
  exact h.trans (by decide)

/-- C8 (code bug): none of the output writers is atomic.  Each one opens
the *final* path with mode "w" (truncating it) and then streams data into
it, so interrupting right after the truncating open leaves an empty file —
neither the old nor the new contents — visible at the target; and none of
the traces contains a rename at all, so the write-temp + rename pattern
the spec requires is absent. -/
theorem output_writes_not_atomic :
    ¬ atomicReplace (writeEntityIndexTrace "sessions-index.json" "[new]")
        "sessions-index.json" "[new]" ∧
    ¬ atomicReplace (saveConversationTrace "conv.jsonl" ["msg1"])
        "conv.jsonl" "msg1\n" ∧
    ¬ atomicReplace (updateIndexTrace "index.json" "[new]")
        "index.json" "[new]" ∧
    ((writeEntityIndexTrace "sessions-index.json" "[new]" ++
      saveConversationTrace "conv.jsonl" ["msg1"] ++
      updateIndexTrace "index.json" "[new]").all
        (fun op => !op.isRename)) = true := by
  refine ⟨?_, ?_, ?_, by decide⟩
  · intro h
    exact absurd
      (h (fun p => if p == "sessions-index.json" then some "[old]" else none) 1)
      (by decide)
  · intro h
    exact absurd
      (h (fun p => if p == "conv.jsonl" then some "[old]" else none) 1)
      (by decide)
  · intro h
    exact absurd
      (h (fun p => if p == "index.json" then some "[old]" else none) 1)
      (by decide)

/-- C9: for every `Settings` value (including the default `None`),
`CompositeClassifier.__init__` raises `TypeError`: it passes the keyword
argument `settings` to `FilePathSignal()`, whose constructor accepts no such
parameter; classification through this class is therefore unreachable. -/
theorem composite_classifier_init_raises {α : Type} (settings : Option α) :
    compositeClassifier_init settings = .error .typeError := by
  rfl

/-- C10: `Message.from_dict` exactly inverts `Message.to_dict` on every
message: the sparse serialisation that omits an empty `message_id`, the
default `"text"` content type, an empty media list, and every empty/zero
`MediaRef` field is undone by the defaults `from_dict` applies. -/
theorem message_roundtrip (m : Message) :
    Message.from_dict (Message.to_dict m) = m := by
  cases m with
  | mk r c ts mid ct media =>
    have hmap : ∀ ms : List MediaRef,
        (ms.map media_ref_to_dict).map media_ref_from_dict = ms := by
      intro ms
      rw [List.map_map]
      have : (media_ref_from_dict ∘ media_ref_to_dict) = id := by
        funext x; exact media_ref_roundtrip x
      simp [this]
    by_cases hct : ct = "text" <;> by_cases hmedia : media = [] <;>
      simp [Message.to_dict, Message.from_dict, hct, hmedia,
        optStr_roundtrip, hmap]

end Openclaw
